import Mathlib

/-!
Shallow embedding of the riscv-emulator sources (a 64-bit RISC-V
user/supervisor/machine-mode instruction-set simulator written in Rust)
together with proofs about the claims of its specification.

Conventions of the embedding:
* Rust machine integers (`u64`, `u32`, ...) are embedded as `Nat` with an
  explicit `% 2 ^ w` (or `&&& mask`) wherever the Rust value would wrap;
  release-mode wrapping semantics is used for `+`, `*`, `<<`, `>>`.
* Fallible operations return an `Outcome`: `.ok v` for `Ok(v)`, `.fault e`
  for `Err(e)`, and `.crash` for a Rust panic (`unreachable!`,
  `unimplemented!`, out-of-bounds indexing, ...).
* Register files and the CSR array are embedded as functions `Nat → Nat`.
-/

/-- Mask of a 64-bit word (`u64::MAX`). -/
def u64Mask : Nat := 2 ^ 64 - 1

/-- Embeds `bit_field` crate: `get_bit` on a `u64`. -/
def getBit (x i : Nat) : Bool := x.testBit i

/-- Embeds `bit_field` crate: `get_bits lo..hi` on a `u64`. -/
def getBitsN (x lo hi : Nat) : Nat := (x >>> lo) &&& (2 ^ (hi - lo) - 1)

/-- Embeds `bit_field` crate: `set_bit` on a `u64`: `self & !(1<<i) | (b<<i)`. -/
def setBitN (x i : Nat) (b : Bool) : Nat :=
  if b then x ||| 2 ^ i else x &&& (u64Mask ^^^ 2 ^ i)

/-- Embeds `bit_field` crate: `set_bits lo..hi` on a `u64`:
`self & !(mask<<lo) | (v<<lo)` (the crate asserts that `v` fits). -/
def setBitsN (x lo hi v : Nat) : Nat :=
  (x &&& (u64Mask ^^^ ((2 ^ (hi - lo) - 1) <<< lo))) ||| (v <<< lo)

/-- Embeds `main.rs`: `enum PrivilegeMode { User = 0, Supervisor = 1, Machine = 2 }`. -/
inductive PrivilegeMode where
  | User
  | Supervisor
  | Machine
deriving DecidableEq, Repr

/-- The Rust discriminant of `PrivilegeMode` (`pm as RegT`). -/
def PrivilegeMode.toNat : PrivilegeMode → Nat
  | .User => 0
  | .Supervisor => 1
  | .Machine => 2

/-- Embeds `main.rs`: `enum XLen { X32 = 32, X64 = 64 }`. -/
inductive XLen where
  | X32
  | X64
deriving DecidableEq, Repr

/-- Embeds `XLen::len`. -/
def XLen.len : XLen → Nat
  | .X32 => 32
  | .X64 => 64

/-- Embeds `XLen::mask` (`0xffff_ffff` or `0xffff_ffff_ffff_ffff`). -/
def XLen.mask : XLen → Nat
  | .X32 => 2 ^ 32 - 1
  | .X64 => 2 ^ 64 - 1

/-- Embeds `isa/mod.rs`: `XLen::shamt_mask`. -/
def XLen.shamt_mask : XLen → Nat
  | .X32 => 0x1f
  | .X64 => 0x3f

/-- Embeds `trap.rs`: `enum Exception`. -/
inductive Exception where
  | InstructionMisaligned
  | InstructionFault
  | IllegalInstruction
  | Breakpoint
  | LoadMisaligned
  | LoadFault
  | StoreMisaligned
  | StoreFault
  | UserEnvCall
  | SupervisorEnvCall
  | MachineEnvCall
  | InstructionPageFault
  | LoadPageFault
  | StorePageFault
  | Unknown
deriving DecidableEq, Repr

/-- Embeds `trap.rs`: `Exception::code`. -/
def Exception.code : Exception → Nat
  | .InstructionMisaligned => 0
  | .InstructionFault => 1
  | .IllegalInstruction => 2
  | .Breakpoint => 3
  | .LoadMisaligned => 4
  | .LoadFault => 5
  | .StoreMisaligned => 6
  | .StoreFault => 7
  | .UserEnvCall => 8
  | .SupervisorEnvCall => 9
  | .MachineEnvCall => 11
  | .InstructionPageFault => 12
  | .LoadPageFault => 13
  | .StorePageFault => 15
  | .Unknown => 8888

/-- Embeds `trap.rs`: `Exception::is_fatal`. -/
def Exception.is_fatal : Exception → Bool
  | .InstructionFault => true
  | .IllegalInstruction => true
  | .InstructionMisaligned => true
  | .LoadFault => true
  | .StorePageFault => true
  | .StoreMisaligned => true
  | _ => false

/-- Embeds `trap.rs`: `enum Interrupt`. -/
inductive Interrupt where
  | UserSoft
  | SupervisorSoft
  | MachineSoft
  | UserTimer
  | SupervisorTimer
  | MachineTimer
  | UserExternal
  | SupervisorExternal
  | MachineExternal
  | Unknown
deriving DecidableEq, Repr

/-- Embeds `trap.rs`: `Interrupt::code`. -/
def Interrupt.code : Interrupt → Nat
  | .UserSoft => 0
  | .SupervisorSoft => 1
  | .MachineSoft => 3
  | .UserTimer => 4
  | .SupervisorTimer => 5
  | .MachineTimer => 7
  | .UserExternal => 8
  | .SupervisorExternal => 9
  | .MachineExternal => 11
  | .Unknown => 9999

/-- Embeds `trap.rs`: `enum Trap`. -/
inductive Trap where
  | interrupt (i : Interrupt)
  | exception (e : Exception)
deriving DecidableEq, Repr

/-- Result of an embedded fallible Rust operation.  `.crash` stands for a
Rust panic (`unreachable!`, `unimplemented!`, index out of bounds, ...). -/
inductive Outcome (α : Type) where
  | ok (v : α)
  | fault (e : Exception)
  | crash
deriving DecidableEq, Repr

/-- Map over the `.ok` value of an `Outcome`. -/
def Outcome.map {α β : Type} (f : α → β) : Outcome α → Outcome β
  | .ok v => .ok (f v)
  | .fault e => .fault e
  | .crash => .crash

/-- Is this outcome an `Ok`? -/
def Outcome.isOk {α : Type} : Outcome α → Bool
  | .ok _ => true
  | _ => false

/-- Is this outcome a panic? -/
def Outcome.isCrash {α : Type} : Outcome α → Bool
  | .crash => true
  | _ => false

/-- Embeds `register/xs.rs`: the 32-entry integer register file, as a function from
register index to the stored raw `u64`. -/
def Xs : Type := Nat → Nat

/-- Embeds `Xs::reg`: reads of register 0 return 0 unconditionally. -/
def Xs.reg (xs : Xs) (id : Nat) : Nat :=
  if id = 0 then 0 else xs id

/-- Embeds `Xs::set_reg`: writes to register 0 are ignored. -/
def Xs.set_reg (xs : Xs) (id v : Nat) : Xs :=
  if id ≠ 0 then (fun i => if i = id then v else xs i) else xs

/-- Embeds `register/csrs.rs`: the 4096-entry CSR array, as a function from CSR
index to the stored raw `u64`. -/
def Csrs : Type := Nat → Nat

/-- Embeds `Csrs::csr`: raw read of a CSR cell. -/
def Csrs.csr (c : Csrs) (n : Nat) : Nat := c n

/-- Embeds `Csrs::set_csr`.  A write to CSR 0x104 (SIE) is redirected: it updates
only the `mideleg`-enabled bits of `mie` (cell 0x304, via `set_mie`), and
cell 0x104 itself is left untouched.  Every other index is written raw. -/
def Csrs.set_csr (c : Csrs) (n v : Nat) : Csrs :=
  if n = 0x104 then
    let mideleg := c 0x303
    let mie := c 0x304
    fun i => if i = 0x304 then (mie &&& (u64Mask ^^^ mideleg)) ||| (v &&& mideleg) else c i
  else
    fun i => if i = n then v else c i

/-- Embeds `register/mstatus.rs`: `Mstatus::mie` (bit 3). -/
def Mstatus.mie (b : Nat) : Bool := getBit b 3

/-- Embeds `Mstatus::mpie` (bit 7). -/
def Mstatus.mpie (b : Nat) : Bool := getBit b 7

/-- Embeds `Mstatus::set_mie`. -/
def Mstatus.set_mie (b : Nat) (v : Bool) : Nat := setBitN b 3 v

/-- Embeds `Mstatus::set_mpie`. -/
def Mstatus.set_mpie (b : Nat) (v : Bool) : Nat := setBitN b 7 v

/-- Embeds `Mstatus::set_mpp`: stores the `PrivilegeMode` discriminant into
bits 11..13. -/
def Mstatus.set_mpp (b : Nat) (pm : PrivilegeMode) : Nat :=
  setBitsN b 11 13 pm.toNat

/-- Embeds `Mstatus::mpp`: decodes bits 11..13, with `unreachable!()` (embedded as
`none`) on the 0b10 pattern. -/
def Mstatus.mpp (b : Nat) : Option PrivilegeMode :=
  if getBitsN b 11 13 = 0 then some .User
  else if getBitsN b 11 13 = 1 then some .Supervisor
  else if getBitsN b 11 13 = 3 then some .Machine
  else none

/-- Embeds `register/sstatus.rs`: `Sstatus::sie` (bit 1). -/
def Sstatus.sie (b : Nat) : Bool := getBit b 1

/-- Embeds `Sstatus::spie` (bit 5). -/
def Sstatus.spie (b : Nat) : Bool := getBit b 5

/-- Embeds `Sstatus::set_sie`. -/
def Sstatus.set_sie (b : Nat) (v : Bool) : Nat := setBitN b 1 v

/-- Embeds `Sstatus::set_spie`. -/
def Sstatus.set_spie (b : Nat) (v : Bool) : Nat := setBitN b 5 v

/-- Embeds `Sstatus::set_spp`: bit 8 is cleared for User and set otherwise. -/
def Sstatus.set_spp (b : Nat) (pm : PrivilegeMode) : Nat :=
  if pm = .User then setBitN b 8 false else setBitN b 8 true

/-- Embeds `Sstatus::spp`: bit 8 decodes to Supervisor (set) or User (clear). -/
def Sstatus.spp (b : Nat) : PrivilegeMode :=
  if getBit b 8 then .Supervisor else .User

/-- Embeds `register/xtvec.rs`: `enum TrapMode`. -/
inductive TrapMode where
  | Direct
  | Vectored
deriving DecidableEq, Repr

/-- Embeds `Xtvec::address`: `bits - (bits & 0b11)`. -/
def Xtvec.address (b : Nat) : Nat := b - (b &&& 0b11)

/-- Embeds `Xtvec::trap_mode`: low two bits 0 is Direct, anything else Vectored. -/
def Xtvec.trap_mode (b : Nat) : TrapMode :=
  if b &&& 0b11 = 0 then .Direct else .Vectored

/-- Embeds `TrapMode::trap_pc`: `base + (4 * cause)` for a Vectored interrupt,
otherwise `base`; `u64` arithmetic wraps. -/
def TrapMode.trap_pc (m : TrapMode) (base cause : Nat) (is_interrupt : Bool) : Nat :=
  let offset := if is_interrupt = true ∧ m = .Vectored then (4 * cause) % 2 ^ 64 else 0
  (base + offset) % 2 ^ 64


/-! ## Device bus (`device/`) -/

/-- Little-endian read of `size` bytes starting at index `start` of a byte
array (`<T as Data>::from_bytes` on a slice of the `Vec<u8>`). -/
def leRead (data : Nat → Nat) (start size : Nat) : Nat :=
  match size with
  | 0 => 0
  | n + 1 => data start + 256 * leRead data (start + 1) n

/-- Embeds `device/memory.rs`: `Memory { data: Vec<u8>, dram_base: u64 }`;
`msize` is the length of the `Vec` (the DRAM capacity). -/
structure Memory where
  data : Nat → Nat
  msize : Nat
  dram_base : Nat

/-- Embeds `Memory::read`: slices `data[start..start+SIZE]` — Rust panics
(`.crash`) when the slice end exceeds the vector length — and assembles the
little-endian value.  (`addr - dram_base` is exact here: the bus dispatch
only sends `addr ≥ dram_base` to the memory.) -/
def Memory.read (m : Memory) (width addr : Nat) : Outcome Nat :=
  let start := addr - m.dram_base
  if start + width ≤ m.msize then .ok (leRead m.data start width)
  else .crash

/-- Embeds `Memory::write`: stores the little-endian bytes of `value`, panicking
(`.crash`) as soon as an index reaches the vector length. -/
def Memory.write (m : Memory) (width addr v : Nat) : Outcome Memory :=
  let start := addr - m.dram_base
  if start + width ≤ m.msize then
    .ok { m with data := fun i =>
      if start ≤ i ∧ i < start + width then (v >>> (8 * (i - start))) &&& 0xff
      else m.data i }
  else .crash

/-- Embeds `device/clint.rs`: `Clint { msip: u32, mtimecmp: u64, mtime: u64 }`. -/
structure Clint where
  msip : Nat
  mtimecmp : Nat
  mtime : Nat

/-- Embeds `Clint::read`: selects the register covering `addr` (inclusive
sub-ranges), shifts by the byte offset (a `u64` shift, whose amount wraps
mod 64 like Rust release arithmetic), and returns the *last* `SIZE` bytes
of the little-endian encoding of the shifted register. -/
def Clint.read (c : Clint) (width addr : Nat) : Outcome Nat :=
  let sel : Option (Nat × Nat) :=
    if 0x2000000 ≤ addr ∧ addr ≤ 0x2000004 then some (c.msip, addr - 0x2000000)
    else if 0x2004000 ≤ addr ∧ addr ≤ 0x2004008 then some (c.mtimecmp, addr - 0x2004000)
    else if 0x200bff8 ≤ addr ∧ addr ≤ 0x200c000 then some (c.mtime, addr - 0x200bff8)
    else none
  match sel with
  | none => .fault .LoadFault
  | some (reg, offset) =>
    let shifted := reg >>> ((offset * 8) % 64)
    .ok ((shifted >>> ((8 - width) * 8)) &&& (2 ^ (8 * width) - 1))

/-- Embeds `Clint::write`: splices the `SIZE` little-endian bytes of `value` into
the register at the byte offset; `origin_bytes[offset + idx]` panics
(`.crash`) when `offset + SIZE > 8`.  `msip` is a `u32`, so its store
truncates. -/
def Clint.write (c : Clint) (width addr v : Nat) : Outcome Clint :=
  let sel : Option (Nat × Nat) :=
    if 0x2000000 ≤ addr ∧ addr ≤ 0x2000004 then some (c.msip, addr - 0x2000000)
    else if 0x2004000 ≤ addr ∧ addr ≤ 0x2004008 then some (c.mtimecmp, addr - 0x2004000)
    else if 0x200bff8 ≤ addr ∧ addr ≤ 0x200c000 then some (c.mtime, addr - 0x200bff8)
    else none
  match sel with
  | none => .fault .StoreFault
  | some (reg, offset) =>
    if offset + width ≤ 8 then
      let fieldMask := (2 ^ (8 * width) - 1) <<< (8 * offset)
      let reg1 := (reg &&& (u64Mask ^^^ fieldMask)) ||| ((v &&& (2 ^ (8 * width) - 1)) <<< (8 * offset))
      if addr ≤ 0x2000004 then .ok { c with msip := reg1 % 2 ^ 32 }
      else if addr ≤ 0x2004008 then .ok { c with mtimecmp := reg1 }
      else .ok { c with mtime := reg1 }
    else .crash

/-- Embeds `device/plic.rs`: the PLIC register arrays, as index functions. -/
structure Plic where
  priority : Nat → Nat
  pending : Nat → Nat
  enable : Nat → Nat
  threshold : Nat → Nat
  claim : Nat → Nat

/-- Embeds `Plic::read`: only 4-byte accesses; word-aligned array regions for
priorities / pending / enable, then per-context threshold (offset 0) and
claim (offset 4) registers. -/
def Plic.read (p : Plic) (width addr : Nat) : Outcome Nat :=
  if width ≠ 4 then .fault .LoadFault
  else if 0xc000000 ≤ addr ∧ addr ≤ 0xc000fff then
    if (addr - 0xc000000) % 4 ≠ 0 then .fault .LoadFault
    else .ok (p.priority ((addr - 0xc000000) / 4))
  else if 0xc001000 ≤ addr ∧ addr ≤ 0xc00107f then
    if (addr - 0xc001000) % 4 ≠ 0 then .fault .LoadFault
    else .ok (p.pending ((addr - 0xc001000) / 4))
  else if 0xc002000 ≤ addr ∧ addr ≤ 0xc0020ff then
    if (addr - 0xc002000) % 4 ≠ 0 then .fault .LoadFault
    else .ok (p.enable ((addr - 0xc002000) / 4))
  else if 0xc200000 ≤ addr ∧ addr ≤ 0xc201007 then
    let context := (addr - 0xc200000) / 0x1000
    let offset := addr - (0xc200000 + 0x1000 * context)
    if offset = 0 then .ok (p.threshold context)
    else if offset = 4 then .ok (p.claim context)
    else .fault .LoadFault
  else .fault .LoadFault

/-- Embeds `Plic::is_enable`. -/
def Plic.is_enable (p : Plic) (context irq : Nat) : Bool :=
  let index := (irq % 1024) / 32
  let offset := (irq % 1024) % 32
  ((p.enable (context * 32 + index)) >>> offset) &&& 1 = 1

/-- Embeds `Plic::update_claim`. -/
def Plic.update_claim (p : Plic) (irq : Nat) : Plic :=
  if p.is_enable 1 irq ∨ irq = 0 then
    { p with claim := fun i => if i = 1 then irq % 2 ^ 32 else p.claim i }
  else p

/-- Embeds `Plic::clear_pending`: clears bit `irq` of `pending[irq / 4]` (the
shift amount of the `u32` literal `1` wraps mod 32); the array index
`irq / 4` panics (`.crash`) when it reaches 32. -/
def Plic.clear_pending (p : Plic) (irq : Nat) : Outcome Plic :=
  if irq / 4 < 32 then
    let p1 := { p with pending := fun i =>
      if i = irq / 4 then p.pending (irq / 4) &&& ((2 ^ 32 - 1) ^^^ (2 ^ (irq % 32))) else p.pending i }
    .ok (p1.update_claim 0)
  else .crash

/-- Embeds `Plic::write`. -/
def Plic.write (p : Plic) (width addr v : Nat) : Outcome Plic :=
  if width ≠ 4 then .fault .StoreFault
  else if 0xc000000 ≤ addr ∧ addr ≤ 0xc000fff then
    if (addr - 0xc000000) % 4 ≠ 0 then .fault .StoreFault
    else .ok { p with priority := fun i =>
      if i = (addr - 0xc000000) / 4 then v % 2 ^ 32 else p.priority i }
  else if 0xc001000 ≤ addr ∧ addr ≤ 0xc00107f then
    if (addr - 0xc001000) % 4 ≠ 0 then .fault .StoreFault
    else .ok { p with pending := fun i =>
      if i = (addr - 0xc001000) / 4 then v % 2 ^ 32 else p.pending i }
  else if 0xc002000 ≤ addr ∧ addr ≤ 0xc0020ff then
    if (addr - 0xc002000) % 4 ≠ 0 then .fault .StoreFault
    else .ok { p with enable := fun i =>
      if i = (addr - 0xc002000) / 4 then v % 2 ^ 32 else p.enable i }
  else if 0xc200000 ≤ addr ∧ addr ≤ 0xc201007 then
    let context := (addr - 0xc200000) / 0x1000
    let offset := addr - (0xc200000 + 0x1000 * context)
    if offset = 0 then .ok { p with threshold := fun i =>
      if i = context then v % 2 ^ 32 else p.threshold i }
    else if offset = 4 then p.clear_pending v
    else .fault .StoreFault
  else .fault .StoreFault

/-- Embeds `device/uart.rs`: the 256-byte UART register file.  The mutex, the
condition variable and the background stdin thread of the source are
concurrency machinery outside this sequential embedding. -/
structure Uart where
  regs : Nat → Nat

/-- Embeds `Uart::read`: only 1-byte accesses; returns the addressed register
byte (the RHR for offset 0).  The source additionally clears the LSR RX
bit and wakes the producer thread when the RHR is read — a side effect on
the mutex-guarded register file that no claim observes and that this pure
value-level embedding does not carry. -/
def Uart.read (u : Uart) (width addr : Nat) : Outcome Nat :=
  if width ≠ 1 then .fault .LoadFault
  else .ok (u.regs (addr - 0x10000000))

/-- Embeds `Uart::write`: only 1-byte accesses; a THR write prints the byte to
standard output (no register change), any other offset stores the byte. -/
def Uart.write (u : Uart) (width addr v : Nat) : Outcome Uart :=
  if width ≠ 1 then .fault .StoreFault
  else if addr = 0x10000000 then .ok u
  else .ok { regs := fun i => if i = addr - 0x10000000 then v % 256 else u.regs i }

/-- Modelled from the spec: the virtio device.  Its source file is not
present under `src/` (`device/mod.rs` declares `pub mod virtio;` but only
the constants and the interfaces `is_interrupting` / `initialize` /
`disk_access` are visible to the core), and §4.6 of the spec treats it as
an "external collaborator" whose register behaviour is out of scope.  Its
memory-mapped reads and writes are therefore uninterpreted functions of an
abstract device state. -/
structure Virtio where
  vstate : Nat
  readFn : Nat → Nat → Nat → Outcome Nat
  writeFn : Nat → Nat → Nat → Nat → Outcome Nat

/-- Virtio register read (spec-modelled, see `Virtio`). -/
def Virtio.read (d : Virtio) (width addr : Nat) : Outcome Nat :=
  d.readFn d.vstate width addr

/-- Virtio register write (spec-modelled, see `Virtio`). -/
def Virtio.write (d : Virtio) (width addr v : Nat) : Outcome Virtio :=
  (d.writeFn d.vstate width addr v).map (fun st => { d with vstate := st })

/-- Embeds `device/bus.rs`: `Bus`. -/
structure Bus where
  memory : Memory
  clint : Clint
  plic : Plic
  uart : Uart
  virtio : Virtio

/-- Embeds `Bus::read`: inclusive address-range dispatch (CLINT, PLIC, UART,
virtio, DRAM, in the source's match order); anything else is a
`LoadFault`. -/
def Bus.read (b : Bus) (width addr : Nat) : Outcome Nat :=
  if 0x2000000 ≤ addr ∧ addr ≤ 0x2010000 then b.clint.read width addr
  else if 0xc000000 ≤ addr ∧ addr ≤ 0xc208000 then b.plic.read width addr
  else if 0x10000000 ≤ addr ∧ addr ≤ 0x10000100 then b.uart.read width addr
  else if 0x10001000 ≤ addr ∧ addr ≤ 0x10002000 then b.virtio.read width addr
  else if 0x80000000 ≤ addr ∧ addr ≤ 0x88000000 then b.memory.read width addr
  else .fault .LoadFault

/-- Embeds `Bus::write`: same dispatch; anything else is a `StoreFault`. -/
def Bus.write (b : Bus) (width addr v : Nat) : Outcome Bus :=
  if 0x2000000 ≤ addr ∧ addr ≤ 0x2010000 then
    (b.clint.write width addr v).map (fun d => { b with clint := d })
  else if 0xc000000 ≤ addr ∧ addr ≤ 0xc208000 then
    (b.plic.write width addr v).map (fun d => { b with plic := d })
  else if 0x10000000 ≤ addr ∧ addr ≤ 0x10000100 then
    (b.uart.write width addr v).map (fun d => { b with uart := d })
  else if 0x10001000 ≤ addr ∧ addr ≤ 0x10002000 then
    (b.virtio.write width addr v).map (fun d => { b with virtio := d })
  else if 0x80000000 ≤ addr ∧ addr ≤ 0x88000000 then
    (b.memory.write width addr v).map (fun d => { b with memory := d })
  else .fault .StoreFault

/-! ## Page tables and the MMU (`page.rs`, `register/satp.rs`, `mmu.rs`) -/

/-- Embeds `register/satp.rs`: `enum Mode`. -/
inductive Mode where
  | Bare
  | Sv32
  | Sv39
  | Sv48
  | Sv57
  | Sv64
deriving DecidableEq, Repr

/-- Embeds `Satp::mode`: decodes the mode field (bit 31 on XLEN=32, bits 60..64 on
XLEN=64); an unlisted field value hits `unreachable!()`, embedded as
`none`. -/
def Satp.mode (xlen : XLen) (bits : Nat) : Option Mode :=
  let m : Nat :=
    match xlen with
    | .X32 => if getBit bits 31 then 1 else 0
    | .X64 => getBitsN bits 60 64
  if m = 0 then some .Bare
  else if m = 1 then some .Sv32
  else if m = 8 then some .Sv39
  else if m = 9 then some .Sv48
  else if m = 10 then some .Sv57
  else if m = 11 then some .Sv64
  else none

/-- Embeds `Satp::ppn`. -/
def Satp.ppn (xlen : XLen) (bits : Nat) : Nat :=
  match xlen with
  | .X32 => getBitsN bits 0 22
  | .X64 => getBitsN bits 0 44

/-- Embeds `page.rs`: `PageTableEnty` flag `V` (bit 0). -/
def PageTableEnty.v (p : Nat) : Bool := getBit p 0

/-- Embeds `PageTableEnty` flag `R` (bit 1). -/
def PageTableEnty.r (p : Nat) : Bool := getBit p 1

/-- Embeds `PageTableEnty` flag `W` (bit 2). -/
def PageTableEnty.w (p : Nat) : Bool := getBit p 2

/-- Embeds `PageTableEnty` flag `X` (bit 3). -/
def PageTableEnty.x (p : Nat) : Bool := getBit p 3

/-- Embeds `PageTableEnty::ppn`: whole PPN field; `unimplemented!()` (embedded as
`none`) outside Sv32/Sv39. -/
def PageTableEnty.ppn (mode : Mode) (p : Nat) : Option Nat :=
  match mode with
  | .Sv32 => some (getBitsN p 10 64)
  | .Sv39 => some (getBitsN p 10 54)
  | _ => none

/-- Embeds `PageTableEnty::ppns`: per-level PPN decomposition; `unimplemented!()`
outside Sv32/Sv39. -/
def PageTableEnty.ppns (mode : Mode) (p : Nat) : Option (List Nat) :=
  match mode with
  | .Sv32 => some [getBitsN p 10 20, getBitsN p 20 32]
  | .Sv39 => some [getBitsN p 10 19, getBitsN p 19 28, getBitsN p 28 54]
  | _ => none

/-- Embeds `page.rs`: `VirtualAddress::virtual_page_offsets` — the per-level VPN
indices, pre-shifted into byte offsets (`<< 2` for Sv32, `<< 3` for Sv39);
`unimplemented!()` outside Sv32/Sv39. -/
def VirtualAddress.virtual_page_offsets (mode : Mode) (a : Nat) : Option (List Nat) :=
  match mode with
  | .Sv32 => some [getBitsN a 12 21 <<< 2, getBitsN a 22 31 <<< 2]
  | .Sv39 => some [getBitsN a 12 21 <<< 3, getBitsN a 21 30 <<< 3, getBitsN a 30 39 <<< 3]
  | _ => none

/-- Embeds `VirtualAddress::offset`: page offset, bits 0..12. -/
def VirtualAddress.offset (a : Nat) : Nat := getBitsN a 0 12

/-- Embeds `mmu.rs`: `enum AccessType`. -/
inductive AccessType where
  | LOAD
  | STORE
  | FETCH
deriving DecidableEq, Repr

/-- The page-fault exception matched to an access type in
`Mmu::translate`. -/
def AccessType.pageFault : AccessType → Exception
  | .LOAD => .LoadPageFault
  | .STORE => .StorePageFault
  | .FETCH => .InstructionPageFault

/-- The `loop` of `Mmu::translate` (steps 3–5 of the walk): reads an 8-byte
PTE at `page_table_addr + vpos[idx]`, faults when `!V` or (`!R ∧ W`),
stops when `R ∨ W` holds (the source's leaf test!), and otherwise descends
to `pte.ppn * PAGE_SIZE`, faulting when the level index would go below
zero.  Returns the leaf PTE together with the level it was found at. -/
def Mmu.walk (bus : Bus) (mode : Mode) (exc : Exception) (vpos : List Nat) :
    Nat → Nat → Outcome (Nat × Nat)
  | page_table_addr, idx =>
    match bus.read 8 ((page_table_addr + vpos.getD idx 0) % 2 ^ 64) with
    | .crash => .crash
    | .fault e => .fault e
    | .ok pte =>
      if ¬ PageTableEnty.v pte ∨ (¬ PageTableEnty.r pte ∧ PageTableEnty.w pte) then
        .fault exc
      else if PageTableEnty.r pte ∨ PageTableEnty.w pte then
        .ok (pte, idx)
      else
        match idx with
        | 0 => .fault exc
        | i + 1 =>
          match PageTableEnty.ppn mode pte with
          | none => .crash
          | some ppn => Mmu.walk bus mode exc vpos ((ppn * 4096) % 2 ^ 64) i

/-- Embeds `Mmu::translate`.  `csrs` is the CSR bank of the CPU state the source
passes in; Bare mode returns the address unchanged; otherwise the Sv32 or
Sv39 walk runs and the physical address is composed from the leaf PPN, the
huge-page formulas for levels 1 and 2, and the page offset. -/
def Mmu.translate (xlen : XLen) (bus : Bus) (csrs : Csrs) (addr : Nat)
    (a_type : AccessType) : Outcome Nat :=
  let satp := Csrs.csr csrs 0x180
  match Satp.mode xlen satp with
  | none => .crash
  | some mode =>
    if mode = .Bare then .ok addr
    else
      let page_table_addr := (Satp.ppn xlen satp * 4096) % 2 ^ 64
      match VirtualAddress.virtual_page_offsets mode addr with
      | none => .crash
      | some vpos =>
        let exc := a_type.pageFault
        match Mmu.walk bus mode exc vpos page_table_addr (vpos.length - 1) with
        | .crash => .crash
        | .fault e => .fault e
        | .ok (pte, idx) =>
          if a_type = .LOAD ∧ PageTableEnty.r pte = false then .fault .LoadPageFault
          else if a_type = .STORE ∧ PageTableEnty.w pte = false then .fault .StorePageFault
          else if a_type = .FETCH ∧ PageTableEnty.x pte = false then .fault .InstructionPageFault
          else
            let offset := VirtualAddress.offset addr
            match idx with
            | 0 =>
              match PageTableEnty.ppn mode pte with
              | none => .crash
              | some ppn => .ok (((ppn <<< 12) ||| offset) % 2 ^ 64)
            | 1 =>
              match mode, PageTableEnty.ppns mode pte with
              | .Sv32, some ps =>
                .ok ((((ps.getD 1 0) <<< 22) ||| ((vpos.getD 0 0) <<< 9) ||| offset) % 2 ^ 64)
              | .Sv39, some ps =>
                .ok ((((ps.getD 2 0) <<< 30) ||| ((ps.getD 1 0) <<< 21) |||
                      ((vpos.getD 0 0) <<< 9) ||| offset) % 2 ^ 64)
              | _, _ => .crash
            | 2 =>
              -- the source indexes `ppns[2]` unconditionally here; for Sv32
              -- that Vec access would panic (the list has two elements)
              match mode, PageTableEnty.ppns mode pte with
              | .Sv39, some ps =>
                .ok ((((ps.getD 2 0) <<< 30) ||| ((vpos.getD 1 0) <<< 18) |||
                      ((vpos.getD 0 0) <<< 9) ||| offset) % 2 ^ 64)
              | _, _ => .crash
            | _ => .fault exc

/-- Embeds `Mmu::load` for a `width`-byte integer type: translate, then read
through the bus. -/
def Mmu.load (xlen : XLen) (bus : Bus) (csrs : Csrs) (width addr : Nat) : Outcome Nat :=
  match Mmu.translate xlen bus csrs addr .LOAD with
  | .crash => .crash
  | .fault e => .fault e
  | .ok paddr => bus.read width paddr

/-- Embeds `Mmu::store` for a `width`-byte integer type: translate, then write
through the bus. -/
def Mmu.store (xlen : XLen) (bus : Bus) (csrs : Csrs) (width addr v : Nat) : Outcome Bus :=
  match Mmu.translate xlen bus csrs addr .STORE with
  | .crash => .crash
  | .fault e => .fault e
  | .ok paddr => bus.write width paddr v

/-! ## CPU state and the trap engine (`cpu.rs`) -/

/-- Embeds `cpu.rs`: `CpuStatus`. -/
structure CpuStatus where
  privilege : PrivilegeMode
  xs : Xs
  csrs : Csrs
  pc : Nat

/-- The target-privilege selection of `Cpu::handle_trap` (step 1 of the
delivery algorithm): with the interrupt top bit already folded into the
cause, the delegation bit `(deleg >> cause) & 1` is consulted — the Rust
release shift masks its amount mod 64 — and a non-Machine hart is
redirected to Supervisor when it is set. -/
def trapTarget (xlen : XLen) (s : CpuStatus) (t : Trap) : PrivilegeMode :=
  let deleg :=
    match t with
    | .interrupt _ => Csrs.csr s.csrs 0x303
    | .exception _ => Csrs.csr s.csrs 0x302
  let cause :=
    match t with
    | .interrupt i => (1 <<< (xlen.len - 1)) ||| i.code
    | .exception e => e.code
  if s.privilege ≠ .Machine ∧ (deleg >>> (cause % 64)) &&& 1 = 1 then .Supervisor
  else .Machine

/-- Embeds `Cpu::handle_trap`: writes `xepc`/`xcause`/`xtval`, stacks
`xPIE ← xIE`, `xIE ← 0`, `xPP ← current privilege` in `xstatus`, switches
privilege, and jumps to the trap vector.  (The source's `_ => unreachable!()`
arm for a User target is dead code: `trapTarget` only returns Supervisor or
Machine, so the non-Supervisor branch below is the Machine arm.) -/
def handle_trap (xlen : XLen) (s : CpuStatus) (t : Trap) : CpuStatus :=
  let cause0 :=
    match t with
    | .interrupt i => i.code
    | .exception e => e.code
  let is_interrupt :=
    match t with
    | .interrupt _ => true
    | .exception _ => false
  let cause := if is_interrupt then (1 <<< (xlen.len - 1)) ||| cause0 else cause0
  let next_privilege := trapTarget xlen s t
  let csrs1 :=
    if next_privilege = .Supervisor then
      let c1 := Csrs.set_csr s.csrs 0x141 s.pc
      let c2 := Csrs.set_csr c1 0x142 cause
      let c3 := Csrs.set_csr c2 0x143 0
      let ss := Csrs.csr c3 0x100
      let ss1 := Sstatus.set_spie ss (Sstatus.sie ss)
      let ss2 := Sstatus.set_sie ss1 false
      let ss3 := Sstatus.set_spp ss2 s.privilege
      Csrs.set_csr c3 0x100 ss3
    else
      let c1 := Csrs.set_csr s.csrs 0x341 s.pc
      let c2 := Csrs.set_csr c1 0x342 cause
      let c3 := Csrs.set_csr c2 0x343 0
      let ms := Csrs.csr c3 0x300
      let ms1 := Mstatus.set_mpie ms (Mstatus.mie ms)
      let ms2 := Mstatus.set_mie ms1 false
      let ms3 := Mstatus.set_mpp ms2 s.privilege
      Csrs.set_csr c3 0x300 ms3
  let xtvec :=
    if next_privilege = .Supervisor then Csrs.csr csrs1 0x105 else Csrs.csr csrs1 0x305
  let trap_pc := (Xtvec.trap_mode xtvec).trap_pc (Xtvec.address xtvec) cause is_interrupt
  { s with pc := trap_pc, privilege := next_privilege, csrs := csrs1 }

/-! ## Instruction handlers (`isa/`) -/

/-- Embeds `isa/mod.rs`: `sext(value, len)` — sign-extends the low `len` bits of a
64-bit value (`reg_len()` is 64). -/
def sext (value len : Nat) : Nat :=
  if len = 64 then value
  else
    let sign := (value >>> (len - 1)) &&& 1
    let mask := (1 <<< len) - 1
    if sign = 0 then value &&& mask
    else (value &&& mask) ||| (((1 <<< (64 - len)) - 1) <<< len)

/-- R/I-format field: `rd = (code >> 7) & 0x1f`. -/
def Format.rd (code : Nat) : Nat := (code >>> 7) &&& 0x1f

/-- R/I-format field: `rs1 = (code >> 15) & 0x1f`. -/
def Format.rs1 (code : Nat) : Nat := (code >>> 15) &&& 0x1f

/-- R-format field: `rs2 = (code >> 20) & 0x1f`. -/
def Format.rs2 (code : Nat) : Nat := (code >>> 20) &&& 0x1f

/-- I-format field: `imm = (code >> 20) & 0xfff`. -/
def Format.imm (code : Nat) : Nat := (code >>> 20) &&& 0xfff

/-- Two's-complement reading of a `u64` bit pattern as an `i64`. -/
def toI64 (x : Nat) : Int := if x < 2 ^ 63 then (x : Int) else (x : Int) - 2 ^ 64

/-- The `u64` bit pattern of an `i64` value (wrapping cast). -/
def toU64 (z : Int) : Nat := (z % 2 ^ 64).toNat

/-- Embeds `isa/rvi.rs`: `Csrrw::exec` — `t = CSRs[csr]; CSRs[csr] = rs1 & mask;
x[rd] = t & mask; pc += 4`. -/
def Csrrw.exec (xlen : XLen) (code : Nat) (s : CpuStatus) : CpuStatus :=
  let scr_num := Format.imm code
  let t := Csrs.csr s.csrs scr_num
  let rs1 := Xs.reg s.xs (Format.rs1 code)
  let csrs1 := Csrs.set_csr s.csrs scr_num (rs1 &&& xlen.mask)
  let xs1 := Xs.set_reg s.xs (Format.rd code) (t &&& xlen.mask)
  { s with csrs := csrs1, xs := xs1, pc := (s.pc + 4) % 2 ^ 64 }

/-- Embeds `isa/rvm.rs`: `Div::exec` — signed division; divisor zero gives the
bit pattern of `-1`; `wrapping_div` is truncating `i64` division. -/
def Div.exec (xlen : XLen) (code : Nat) (s : CpuStatus) : CpuStatus :=
  let rs1 := toI64 (Xs.reg s.xs (Format.rs1 code))
  let rs2 := toI64 (Xs.reg s.xs (Format.rs2 code))
  let value := if rs2 = 0 then toU64 (-1) else toU64 (Int.tdiv rs1 rs2)
  let xs1 := Xs.set_reg s.xs (Format.rd code) (value &&& xlen.mask)
  { s with xs := xs1, pc := (s.pc + 4) % 2 ^ 64 }

/-- Embeds `isa/rvm.rs`: `Divu::exec`. -/
def Divu.exec (xlen : XLen) (code : Nat) (s : CpuStatus) : CpuStatus :=
  let rs1 := Xs.reg s.xs (Format.rs1 code)
  let rs2 := Xs.reg s.xs (Format.rs2 code)
  let value := if rs2 = 0 then toU64 (-1) else rs1 / rs2
  let xs1 := Xs.set_reg s.xs (Format.rd code) (value &&& xlen.mask)
  { s with xs := xs1, pc := (s.pc + 4) % 2 ^ 64 }

/-- Embeds `isa/rvm.rs`: `Rem::exec` — signed remainder; divisor zero gives the
dividend (written back without the mask, unlike the non-zero branch). -/
def Rem.exec (xlen : XLen) (code : Nat) (s : CpuStatus) : CpuStatus :=
  let rs1 := toI64 (Xs.reg s.xs (Format.rs1 code))
  let rs2 := toI64 (Xs.reg s.xs (Format.rs2 code))
  let value := if rs2 = 0 then toU64 rs1 else toU64 (Int.tmod rs1 rs2) &&& xlen.mask
  let xs1 := Xs.set_reg s.xs (Format.rd code) value
  { s with xs := xs1, pc := (s.pc + 4) % 2 ^ 64 }

/-- Embeds `isa/rvm.rs`: `Remu::exec`. -/
def Remu.exec (xlen : XLen) (code : Nat) (s : CpuStatus) : CpuStatus :=
  let rs1 := Xs.reg s.xs (Format.rs1 code)
  let rs2 := Xs.reg s.xs (Format.rs2 code)
  let value := if rs2 = 0 then rs1 else (rs1 % rs2) &&& xlen.mask
  let xs1 := Xs.set_reg s.xs (Format.rd code) value
  { s with xs := xs1, pc := (s.pc + 4) % 2 ^ 64 }

/-- Embeds `isa/rvm.rs`: `Divuw::exec` — unsigned 32-bit division of the low
words; divisor zero gives the bit pattern of `-1`; the (sign-extended)
result is masked and stored. -/
def Divuw.exec (xlen : XLen) (code : Nat) (s : CpuStatus) : CpuStatus :=
  let rs1 := Xs.reg s.xs (Format.rs1 code) &&& 0xffffffff
  let rs2 := Xs.reg s.xs (Format.rs2 code) &&& 0xffffffff
  let value := if rs2 = 0 then toU64 (-1) else rs1 / rs2
  let xs1 := Xs.set_reg s.xs (Format.rd code) (sext value 32 &&& xlen.mask)
  { s with xs := xs1, pc := (s.pc + 4) % 2 ^ 64 }

/-- Embeds `isa/rvm.rs`: `Remuw::exec` — unsigned 32-bit remainder of the low
words; divisor zero gives the sign-extended low word of the dividend. -/
def Remuw.exec (xlen : XLen) (code : Nat) (s : CpuStatus) : CpuStatus :=
  let rs1 := Xs.reg s.xs (Format.rs1 code) &&& 0xffffffff
  let rs2 := Xs.reg s.xs (Format.rs2 code) &&& 0xffffffff
  let value := if rs2 = 0 then sext rs1 32 else sext (rs1 % rs2) 32
  let xs1 := Xs.set_reg s.xs (Format.rd code) (value &&& xlen.mask)
  { s with xs := xs1, pc := (s.pc + 4) % 2 ^ 64 }

/-- Embeds `isa/rva.rs`: `AmoswapW::exec` — the only AMO handler with the
alignment check: a non-4-byte-aligned `rs1` address raises
`LoadMisaligned` before any memory access; otherwise the 32-bit load, the
swap store, and the sign-extended write to `rd`. -/
def AmoswapW.exec (xlen : XLen) (bus : Bus) (code : Nat) (s : CpuStatus) :
    Outcome (Bus × CpuStatus) :=
  let addr := Xs.reg s.xs (Format.rs1 code)
  let src := Xs.reg s.xs (Format.rs2 code)
  if addr % 4 ≠ 0 then .fault .LoadMisaligned
  else
    match Mmu.load xlen bus s.csrs 4 addr with
    | .crash => .crash
    | .fault e => .fault e
    | .ok value0 =>
      let value := sext value0 32
      match Mmu.store xlen bus s.csrs 4 addr (src % 2 ^ 32) with
      | .crash => .crash
      | .fault e => .fault e
      | .ok bus1 =>
        let xs1 := Xs.set_reg s.xs (Format.rd code) (value &&& xlen.mask)
        .ok (bus1, { s with xs := xs1, pc := (s.pc + 4) % 2 ^ 64 })

/-- Embeds `isa/rva.rs`: `AmoaddW::exec` — note: no alignment check; the 32-bit
load, the wrapping-add store, and the sign-extended write to `rd`. -/
def AmoaddW.exec (xlen : XLen) (bus : Bus) (code : Nat) (s : CpuStatus) :
    Outcome (Bus × CpuStatus) :=
  let addr := Xs.reg s.xs (Format.rs1 code)
  let src := Xs.reg s.xs (Format.rs2 code) % 2 ^ 32
  match Mmu.load xlen bus s.csrs 4 addr with
  | .crash => .crash
  | .fault e => .fault e
  | .ok value0 =>
    match Mmu.store xlen bus s.csrs 4 addr ((src + value0) % 2 ^ 32) with
    | .crash => .crash
    | .fault e => .fault e
    | .ok bus1 =>
      let value := sext value0 32
      let xs1 := Xs.set_reg s.xs (Format.rd code) (value &&& xlen.mask)
      .ok (bus1, { s with xs := xs1, pc := (s.pc + 4) % 2 ^ 64 })

/-- Embeds `isa/rvi.rs`: `Mret::exec` — `pc ← mepc`; privilege from
`mstatus.MPP` (whose reader panics, `none`, on the 0b10 pattern);
`MIE ← MPIE`; `MPIE ← 1`; `MPP ← User`. -/
def Mret.exec (s : CpuStatus) : Option CpuStatus :=
  match Mstatus.mpp (Csrs.csr s.csrs 0x300) with
  | none => none
  | some p =>
    let m0 := Csrs.csr s.csrs 0x300
    let m1 := Mstatus.set_mie m0 (Mstatus.mpie m0)
    let m2 := Mstatus.set_mpie m1 true
    let m3 := Mstatus.set_mpp m2 .User
    some { s with
      pc := Csrs.csr s.csrs 0x341
      privilege := p
      csrs := Csrs.set_csr s.csrs 0x300 m3 }

/-- Embeds `isa/rvi.rs`: `Sret::exec` — `pc ← sepc`; privilege from
`sstatus.SPP`; `SIE ← SPIE`; `SPIE ← 1`; `SPP ← User`. -/
def Sret.exec (s : CpuStatus) : CpuStatus :=
  let ss0 := Csrs.csr s.csrs 0x100
  let ss1 := Sstatus.set_sie ss0 (Sstatus.spie ss0)
  let ss2 := Sstatus.set_spie ss1 true
  let ss3 := Sstatus.set_spp ss2 .User
  { s with
    pc := Csrs.csr s.csrs 0x141
    privilege := Sstatus.spp ss0
    csrs := Csrs.set_csr s.csrs 0x100 ss3 }

/-! ## Decoder pattern table (`macros/src/init_insn.rs`, `#[match_code]` /
`#[mask]` attributes of every `def_insn!` in `isa/rvi.rs`, `isa/rvm.rs`,
`isa/rva.rs`) -/

/-- One `(match_code, mask)` entry of the decoder's pattern table. -/
structure InsnPattern where
  matchCode : Nat
  maskCode : Nat
deriving DecidableEq, Repr

set_option maxHeartbeats 1000000 in
/-- The complete pattern table registered through the distributed slice:
every instruction the decoder can recognise.  (The decoder buckets the
entries by `match_code & 0x7f` and scans a bucket linearly; bucketing only
prunes, so an encoding decodes to `None` exactly when no entry at all
matches it.) -/
def INSN_SLICE : List InsnPattern := [
  ⟨0x37, 0x7f⟩,              -- Lui
  ⟨0x17, 0x7f⟩,              -- Auipc
  ⟨0x6f, 0x7f⟩,              -- Jal
  ⟨0x67, 0x707f⟩,            -- Jalr
  ⟨0x63, 0x707f⟩,            -- Beq
  ⟨0x1063, 0x707f⟩,          -- Bne
  ⟨0x4063, 0x707f⟩,          -- Blt
  ⟨0x5063, 0x707f⟩,          -- Bge
  ⟨0x6063, 0x707f⟩,          -- Bltu
  ⟨0x7063, 0x707f⟩,          -- Bgeu
  ⟨0x3, 0x707f⟩,             -- Lb
  ⟨0x1003, 0x707f⟩,          -- Lh
  ⟨0x2003, 0x707f⟩,          -- Lw
  ⟨0x4003, 0x707f⟩,          -- Lbu
  ⟨0x5003, 0x707f⟩,          -- Lhu
  ⟨0x23, 0x707f⟩,            -- Sb
  ⟨0x1023, 0x707f⟩,          -- Sh
  ⟨0x2023, 0x707f⟩,          -- Sw
  ⟨0x13, 0x707f⟩,            -- Addi
  ⟨0x2013, 0x707f⟩,          -- Slti
  ⟨0x3013, 0x707f⟩,          -- Sltiu
  ⟨0x4013, 0x707f⟩,          -- Xori
  ⟨0x6013, 0x707f⟩,          -- Ori
  ⟨0x7013, 0x707f⟩,          -- Andi
  ⟨0x1013, 0xfc00707f⟩,      -- Slli
  ⟨0x5013, 0xfc00707f⟩,      -- Srli
  ⟨0x40005013, 0xfc00707f⟩,  -- Srai
  ⟨0x33, 0xfe00707f⟩,        -- Add
  ⟨0x40000033, 0xfe00707f⟩,  -- Sub
  ⟨0x1033, 0xfe00707f⟩,      -- Sll
  ⟨0x2033, 0xfe00707f⟩,      -- Slt
  ⟨0x3033, 0xfe00707f⟩,      -- Sltu
  ⟨0x4033, 0xfe00707f⟩,      -- Xor
  ⟨0x5033, 0xfe00707f⟩,      -- Srl
  ⟨0x40005033, 0xfe00707f⟩,  -- Sra
  ⟨0x6033, 0xfe00707f⟩,      -- Or
  ⟨0x7033, 0xfe00707f⟩,      -- And
  ⟨0xf, 0x707f⟩,             -- Fence
  ⟨0x100f, 0x707f⟩,          -- FenceI
  ⟨0x73, 0xffffffff⟩,        -- Ecall
  ⟨0x100073, 0xffffffff⟩,    -- Ebreak
  ⟨0x1073, 0x707f⟩,          -- Csrrw
  ⟨0x2073, 0x707f⟩,          -- Csrrs
  ⟨0x3073, 0x707f⟩,          -- Csrrc
  ⟨0x5073, 0x707f⟩,          -- Csrrwi
  ⟨0x6073, 0x707f⟩,          -- Csrrsi
  ⟨0x7073, 0x707f⟩,          -- Csrrci
  ⟨0x6003, 0x707f⟩,          -- Lwu
  ⟨0x3003, 0x707f⟩,          -- Ld
  ⟨0x3023, 0x707f⟩,          -- Sd
  ⟨0x1b, 0x707f⟩,            -- Addiw
  ⟨0x101b, 0xfe00707f⟩,      -- Slliw
  ⟨0x4000501b, 0xfe00707f⟩,  -- Sraiw
  ⟨0x501b, 0xfe00707f⟩,      -- Srliw
  ⟨0x3b, 0xfe00707f⟩,        -- Addw
  ⟨0x4000003b, 0xfe00707f⟩,  -- Subw
  ⟨0x103b, 0xfe00707f⟩,      -- Sllw
  ⟨0x4000503b, 0xfe00707f⟩,  -- Sraw
  ⟨0x10200073, 0xffffffff⟩,  -- Sret
  ⟨0x30200073, 0xffffffff⟩,  -- Mret
  ⟨0x10500073, 0xffffffff⟩,  -- Wfi
  ⟨0x12000073, 0xfe007fff⟩,  -- SfenceVma
  ⟨0x2000033, 0xfe00707f⟩,   -- Mul
  ⟨0x2001033, 0xfe00707f⟩,   -- Mulh
  ⟨0x2002033, 0xfe00707f⟩,   -- Mulhsu
  ⟨0x2003033, 0xfe00707f⟩,   -- Mulhu
  ⟨0x2004033, 0xfe00707f⟩,   -- Div
  ⟨0x2005033, 0xfe00707f⟩,   -- Divu
  ⟨0x2006033, 0xfe00707f⟩,   -- Rem
  ⟨0x2007033, 0xfe00707f⟩,   -- Remu
  ⟨0x200703b, 0xfe00707f⟩,   -- Remuw
  ⟨0x200503b, 0xfe00707f⟩,   -- Divuw
  ⟨0x1000202f, 0xf9f0707f⟩,  -- LrW
  ⟨0x1800202f, 0xf800707f⟩,  -- ScW
  ⟨0x800202f, 0xf800707f⟩,   -- AmoswapW
  ⟨0x202f, 0xf800707f⟩,      -- AmoaddW
  ⟨0x2000202f, 0xf800707f⟩,  -- AmoxorW
  ⟨0x6000202f, 0xf800707f⟩,  -- AmoandW
  ⟨0x4000202f, 0xf800707f⟩,  -- AmoorW
  ⟨0x8000202f, 0xf800707f⟩,  -- AmominW
  ⟨0xa000202f, 0xf800707f⟩,  -- AmomaxW
  ⟨0xc000202f, 0xf800707f⟩,  -- AmominuW
  ⟨0xe000202f, 0xf800707f⟩]  -- AmomaxuW

/-- Embeds `InsnDecoder::decode`: the first table entry whose masked comparison
matches the encoding (`code & mask == match_code`); `none` when no entry
matches — the hart turns that into `IllegalInstruction`. -/
def InsnDecoder.decode (code : Nat) : Option InsnPattern :=
  List.find? (fun e => code &&& e.maskCode = e.matchCode) INSN_SLICE

/-! ## Concrete fixtures used by the counterexamples and witnesses -/

/-- All-zero DRAM of 128 MiB at `0x8000_0000`, as `Bus::new` builds it from
a zero-padded kernel image. -/
def memZero : Memory := ⟨fun _ => 0, 0x8000000, 0x80000000⟩

/-- Embeds `Clint::new()`. -/
def clint0 : Clint := ⟨0, 0, 0⟩

/-- Embeds `Plic::new()`. -/
def plic0 : Plic := ⟨fun _ => 0, fun _ => 0, fun _ => 0, fun _ => 0, fun _ => 0⟩

/-- A UART register file fixture. -/
def uart0 : Uart := ⟨fun _ => 0⟩

/-- A virtio fixture (all accesses fault). -/
def virtio0 : Virtio := ⟨0, fun _ _ _ => .fault .LoadFault, fun _ _ _ _ => .fault .StoreFault⟩

/-- A bus over all-zero DRAM. -/
def busZero : Bus := ⟨memZero, clint0, plic0, uart0, virtio0⟩


/-- DRAM holding a single Sv39 root page table at physical `0x8010_0000`
whose entry 0 is the 64-bit PTE `0x2004_0009` = (ppn `0x80100` << 10) | X | V:
a valid execute-only entry pointing back at its own page. -/
def memPte : Memory :=
  ⟨fun i =>
    if i = 0x100000 then 0x09
    else if i = 0x100002 then 0x04
    else if i = 0x100003 then 0x20
    else 0,
   0x8000000, 0x80000000⟩

/-- A bus over `memPte`. -/
def busPte : Bus := ⟨memPte, clint0, plic0, uart0, virtio0⟩

/-- CSR bank with `satp` = Sv39, root PPN `0x80100`, all other cells 0. -/
def csrsSv39 : Csrs := fun i => if i = 0x180 then (8 <<< 60) ||| 0x80100 else 0

/-- All-zero CSR bank. -/
def csrsZero : Csrs := fun _ => 0

/-- All-zero register file. -/
def xsZero : Xs := fun _ => 0


/-- Register file for the AMO counterexample: `x1` holds the misaligned
DRAM address `0x8000_0002`, `x2` holds 5. -/
def xsAmo : Xs := fun i => if i = 1 then 0x80000002 else if i = 2 then 5 else 0

/-- Machine-mode state over all-zero CSRs (so `satp` is Bare). -/
def stAmo : CpuStatus := ⟨.Machine, xsAmo, csrsZero, 0x80000000⟩

/-- Encoding of `amoadd.w x3, x2, (x1)`. -/
def codeAmoaddX3X2X1 : Nat := 0x202f ||| (3 <<< 7) ||| (1 <<< 15) ||| (2 <<< 20)

/-- Encoding of `amoswap.w x3, x2, (x1)`. -/
def codeAmoswapX3X2X1 : Nat := 0x800202f ||| (3 <<< 7) ||| (1 <<< 15) ||| (2 <<< 20)

/-- Machine-mode state with all-zero registers and CSRs. -/
def stMachineZero : CpuStatus := ⟨.Machine, xsZero, csrsZero, 0x80000000⟩

/-- State whose `mstatus` has the MPP field set to the undecodable pattern
0b10 — exactly what `handle_trap` leaves behind after a trap taken in
Machine mode. -/
def stMpp2 : CpuStatus :=
  ⟨.Machine, xsZero, (fun i => if i = 0x300 then 0x1000 else 0), 0⟩


/-- A Machine-mode state with `mstatus` = 0x1880 (MPIE set, MPP = 0b11)
and `mepc` = 0x9000_0000. -/
def stMret : CpuStatus :=
  ⟨.Machine, xsZero,
   (fun i => if i = 0x300 then 0x1880 else if i = 0x341 then 0x90000000 else 0),
   0x80000000⟩

/-- The state `Mret::exec` produces from `stMret`: PC from `mepc`,
privilege Machine (the prior MPP), `mstatus` = 0x88 (MIE and MPIE set,
MPP = User). -/
def stMret1 : CpuStatus :=
  ⟨.Machine, xsZero, Csrs.set_csr stMret.csrs 0x300 0x88, 0x90000000⟩

/-- Machine-mode state with `mtvec` = 0x1001 (Vectored, base 0x1000). -/
def stTvec : CpuStatus :=
  ⟨.Machine, xsZero, (fun i => if i = 0x305 then 0x1001 else 0), 0x80000000⟩

/-! ## Bit-level toolkit -/

/-- Every bit of `u64Mask` below 64 is set. -/
theorem testBit_u64Mask (j : Nat) : u64Mask.testBit j = decide (j < 64) := by
  unfold u64Mask
  exact Nat.testBit_two_pow_sub_one 64 j

/-- Embeds `setBitN` acts on single bits: bit `i` becomes `b`, every other bit
below 64 is unchanged. -/
theorem testBit_setBitN (x i : Nat) (b : Bool) (j : Nat) (hj : j < 64) :
    (setBitN x i b).testBit j = if j = i then b else x.testBit j := by
  unfold setBitN
  cases b with
  | true =>
    by_cases h : j = i
    · subst h; simp [Nat.testBit_lor, Nat.testBit_two_pow]
    · simp [Nat.testBit_lor, Nat.testBit_two_pow, h, Ne.symm h]
  | false =>
    by_cases h : j = i
    · subst h
      simp [Nat.testBit_land, Nat.testBit_xor, Nat.testBit_two_pow, testBit_u64Mask, hj]
    · simp [Nat.testBit_land, Nat.testBit_xor, Nat.testBit_two_pow, testBit_u64Mask,
        h, Ne.symm h, hj]

/-- Embeds `setBitsN` acts on the field `lo..hi`: inside it the bits come from
`v`, outside (below 64) the bits are unchanged — provided `v` fits the
field, as the `bit_field` crate asserts. -/
theorem testBit_setBitsN (x lo hi v j : Nat) (hj : j < 64) (hv : v < 2 ^ (hi - lo)) :
    (setBitsN x lo hi v).testBit j =
      if lo ≤ j ∧ j < hi then v.testBit (j - lo) else x.testBit j := by
  unfold setBitsN
  simp only [Nat.testBit_lor, Nat.testBit_land, Nat.testBit_xor,
    Nat.testBit_shiftLeft, Nat.testBit_two_pow_sub_one, testBit_u64Mask, hj,
    decide_True, ge_iff_le]
  by_cases hlo : lo ≤ j
  · by_cases hhi : j < hi
    · have h1 : j - lo < hi - lo := by omega
      simp [hlo, hhi, h1]
    · have h1 : ¬ (j - lo < hi - lo) := by omega
      have h2 : v.testBit (j - lo) = false := by
        apply Nat.testBit_lt_two_pow
        calc v < 2 ^ (hi - lo) := hv
        _ ≤ 2 ^ (j - lo) := Nat.pow_le_pow_right (by omega) (by omega)
      simp [hlo, hhi, h1, h2]
  · have h1 : ¬ (lo ≤ j ∧ j < hi) := by omega
    simp [hlo, h1]

/-- Reading back a `u64` bit pattern through the signed/unsigned casts is
the identity. -/
theorem toU64_toI64 (x : Nat) (h : x < 2 ^ 64) : toU64 (toI64 x) = x := by
  unfold toU64 toI64
  split <;> omega

/-- The specification of `sext`: below `len` the bits of the argument,
from `len` up to 63 copies of bit `len - 1`. -/
theorem sext_testBit (x len k : Nat) (h0 : 0 < len) (h64 : len < 64) (hk : k < 64) :
    (sext x len).testBit k = if k < len then x.testBit k else x.testBit (len - 1) := by
  have hne : len ≠ 64 := by omega
  have hmask : (1 <<< len) - 1 = 2 ^ len - 1 := by simp [Nat.shiftLeft_eq]
  have hhigh : (1 <<< (64 - len)) - 1 = 2 ^ (64 - len) - 1 := by simp [Nat.shiftLeft_eq]
  have hsign : (x >>> (len - 1)) &&& 1 = x / 2 ^ (len - 1) % 2 := by
    rw [Nat.shiftRight_eq_div_pow, Nat.and_one_is_mod]
  have htb : x.testBit (len - 1) = decide (x / 2 ^ (len - 1) % 2 = 1) :=
    Nat.testBit_to_div_mod
  unfold sext
  rw [if_neg hne]
  simp only [hsign, hmask, hhigh]
  by_cases hs : x / 2 ^ (len - 1) % 2 = 0
  · have hbit : x.testBit (len - 1) = false := by rw [htb]; simp [hs]
    rw [if_pos hs]
    simp only [Nat.testBit_land, Nat.testBit_two_pow_sub_one]
    by_cases hkl : k < len
    · simp [hkl]
    · simp [hkl, hbit]
  · have hs1 : x / 2 ^ (len - 1) % 2 = 1 := by omega
    have hbit : x.testBit (len - 1) = true := by rw [htb]; simp [hs1]
    rw [if_neg hs]
    simp only [Nat.testBit_lor, Nat.testBit_land, Nat.testBit_shiftLeft,
      Nat.testBit_two_pow_sub_one, ge_iff_le]
    by_cases hkl : k < len
    · have h2 : ¬ (len ≤ k) := by omega
      simp [hkl, h2]
    · have h1 : len ≤ k := by omega
      have h2 : k - len < 64 - len := by omega
      simp [hkl, h1, h2, hbit]

/-! ## Claim C8: writes to CSR 0x104 mask through mideleg into mie -/

/-- C8: for every prior CSR-bank state and written value, a write to CSR
0x104 makes each `mideleg`-enabled bit of `mie` (cell 0x304) equal to the
corresponding bit of the written value, preserves every `mideleg`-disabled
bit of `mie`, and changes no CSR cell other than 0x304. -/
theorem c8_sie_write_masks_mie (c : Csrs) (v i : Nat) (hi : i < 64) :
    ((Csrs.set_csr c 0x104 v) 0x304).testBit i =
      (if (c 0x303).testBit i then v.testBit i else (c 0x304).testBit i) ∧
    ∀ j, j ≠ 0x304 → (Csrs.set_csr c 0x104 v) j = c j := by
  constructor
  · unfold Csrs.set_csr
    simp only [if_pos rfl, Nat.testBit_lor, Nat.testBit_land, Nat.testBit_xor,
      testBit_u64Mask, hi, decide_True]
    cases hmd : (c 0x303).testBit i <;> cases hv : v.testBit i <;>
      cases hm : (c 0x304).testBit i <;>
        simp [hmd, hv, hm, testBit_u64Mask, hi]
  · intro j hj
    unfold Csrs.set_csr
    simp [hj]

/-- Witness for C8 at a concrete bank: `mideleg` = 0b10, `mie` = 0b01,
value 0b11 written to 0x104. -/
theorem c8_sie_write_masks_mie_witness :
    ((Csrs.set_csr (fun i => if i = 0x303 then 2 else if i = 0x304 then 1 else 0)
        0x104 3) 0x304).testBit 1 =
      (if ((fun i => if i = 0x303 then 2 else if i = 0x304 then 1 else 0) 0x303
            : Nat).testBit 1
       then (3 : Nat).testBit 1
       else ((fun i => if i = 0x303 then 2 else if i = 0x304 then 1 else 0) 0x304
            : Nat).testBit 1) :=
  (c8_sie_write_masks_mie
    (fun i => if i = 0x303 then 2 else if i = 0x304 then 1 else 0) 3 1
    (by decide)).1

/-! ## Claim C4: CSRRW semantics -/

/-- C4 (amended): for every CSR index **other than 0x104** and every
non-zero destination register, CSRRW writes the old CSR value (masked to
XLEN) into `rd` and leaves the CSR cell holding `rs1`'s value masked to
XLEN.  (At index 0x104 the write is redirected into `mie`, see the
counterexample.) -/
theorem c4_csrrw (code : Nat) (s : CpuStatus)
    (hcsr : Format.imm code ≠ 0x104) (hrd : Format.rd code ≠ 0) :
    Xs.reg (Csrrw.exec .X64 code s).xs (Format.rd code) =
      Csrs.csr s.csrs (Format.imm code) &&& XLen.mask .X64 ∧
    Csrs.csr (Csrrw.exec .X64 code s).csrs (Format.imm code) =
      Xs.reg s.xs (Format.rs1 code) &&& XLen.mask .X64 := by
  unfold Csrrw.exec
  constructor
  · simp [Xs.reg, Xs.set_reg, hrd]
  · simp [Csrs.csr, Csrs.set_csr, hcsr]

/-- Witness for C4: CSRRW of `mscratch`-like cell 0x340 with `rs1 = x1`,
`rd = x1`, over the all-zero state with `x1 = 1`. -/
theorem c4_csrrw_witness :
    Xs.reg (Csrrw.exec .X64 (0x1073 ||| (1 <<< 7) ||| (1 <<< 15) ||| (0x340 <<< 20))
        ⟨.Machine, (fun i => if i = 1 then 1 else 0), csrsZero, 0x80000000⟩).xs
      (Format.rd (0x1073 ||| (1 <<< 7) ||| (1 <<< 15) ||| (0x340 <<< 20))) =
      Csrs.csr csrsZero
        (Format.imm (0x1073 ||| (1 <<< 7) ||| (1 <<< 15) ||| (0x340 <<< 20))) &&&
        XLen.mask .X64 :=
  (c4_csrrw (0x1073 ||| (1 <<< 7) ||| (1 <<< 15) ||| (0x340 <<< 20))
    ⟨.Machine, (fun i => if i = 1 then 1 else 0), csrsZero, 0x80000000⟩
    (by decide) (by decide)).1

/-- C4 counterexample: CSRRW to CSR 0x104 with `rs1`'s value 1 leaves cell
0x104 at 0, not at the masked `rs1` value 1 — the write was redirected
into `mie`. -/
theorem c4_csrrw_counterexample :
    Csrs.csr (Csrrw.exec .X64 (0x1073 ||| (1 <<< 7) ||| (1 <<< 15) ||| (0x104 <<< 20))
        ⟨.Machine, (fun i => if i = 1 then 1 else 0), csrsZero, 0x80000000⟩).csrs 0x104 = 0 ∧
    Xs.reg (fun i => if i = 1 then 1 else 0)
        (Format.rs1 (0x1073 ||| (1 <<< 7) ||| (1 <<< 15) ||| (0x104 <<< 20))) &&&
      XLen.mask .X64 = 1 := by
  constructor
  · rfl
  · decide

/-! ## Claim C3: AMO alignment checks -/

/-- C3 (amended): of the `AMO*.W` handlers, `AMOSWAP.W` raises
`LoadMisaligned` — before any memory access — whenever the address in
`rs1` is not 4-byte aligned.  (The remaining AMO handlers perform the
access without an alignment check; see the counterexample for
`AMOADD.W`.) -/
theorem c3_amoswap_misaligned (bus : Bus) (code : Nat) (s : CpuStatus)
    (h : Xs.reg s.xs (Format.rs1 code) % 4 ≠ 0) :
    AmoswapW.exec .X64 bus code s = .fault .LoadMisaligned := by
  unfold AmoswapW.exec
  simp [h]

/-- Witness for C3: `amoswap.w x3, x2, (x1)` with `x1 = 0x8000_0002`. -/
theorem c3_amoswap_misaligned_witness :
    AmoswapW.exec .X64 busZero codeAmoswapX3X2X1 stAmo = .fault .LoadMisaligned :=
  c3_amoswap_misaligned busZero codeAmoswapX3X2X1 stAmo (by decide)

/-- C3 counterexample: `amoadd.w x3, x2, (x1)` with the misaligned DRAM
address `0x8000_0002` in `x1` completes successfully instead of raising
`LoadMisaligned`. -/
theorem c3_amoadd_no_alignment_check :
    Xs.reg stAmo.xs (Format.rs1 codeAmoaddX3X2X1) % 4 = 2 ∧
    (AmoaddW.exec .X64 busZero codeAmoaddX3X2X1 stAmo).isOk = true := by
  constructor
  · decide
  · decide

/-! ## Claim C5: division by zero -/

/-- Reading the register just written (for a non-zero index) gives the
written value. -/
theorem reg_set_reg_self (xs : Xs) (rd v : Nat) (h : rd ≠ 0) :
    Xs.reg (Xs.set_reg xs rd v) rd = v := by
  unfold Xs.reg Xs.set_reg
  simp [h]

/-- C5 (amended; the source implements no DIVW): with a zero divisor,
`DIV`, `DIVU` and `DIVUW` write the all-ones pattern `2^64 - 1` (the
sign-extended 32-bit `-1` for the word form) to a non-zero `rd`; `REM` and
`REMU` write the dividend back; `REMUW` writes the sign-extended low 32
bits of the dividend; each handler advances the PC by 4. -/
theorem c5_div_by_zero (code : Nat) (s : CpuStatus)
    (h0 : Xs.reg s.xs (Format.rs2 code) = 0)
    (hrd : Format.rd code ≠ 0)
    (hx : Xs.reg s.xs (Format.rs1 code) < 2 ^ 64)
    (hpc : s.pc + 4 < 2 ^ 64) :
    (Xs.reg (Div.exec .X64 code s).xs (Format.rd code) = 2 ^ 64 - 1 ∧
      (Div.exec .X64 code s).pc = s.pc + 4) ∧
    (Xs.reg (Divu.exec .X64 code s).xs (Format.rd code) = 2 ^ 64 - 1 ∧
      (Divu.exec .X64 code s).pc = s.pc + 4) ∧
    (Xs.reg (Divuw.exec .X64 code s).xs (Format.rd code) = 2 ^ 64 - 1 ∧
      (Divuw.exec .X64 code s).pc = s.pc + 4) ∧
    (Xs.reg (Rem.exec .X64 code s).xs (Format.rd code) = Xs.reg s.xs (Format.rs1 code) ∧
      (Rem.exec .X64 code s).pc = s.pc + 4) ∧
    (Xs.reg (Remu.exec .X64 code s).xs (Format.rd code) = Xs.reg s.xs (Format.rs1 code) ∧
      (Remu.exec .X64 code s).pc = s.pc + 4) ∧
    ((∀ k, k < 64 →
        (Xs.reg (Remuw.exec .X64 code s).xs (Format.rd code)).testBit k =
          if k < 32 then (Xs.reg s.xs (Format.rs1 code)).testBit k
          else (Xs.reg s.xs (Format.rs1 code)).testBit 31) ∧
      (Remuw.exec .X64 code s).pc = s.pc + 4) := by
  have hm1 : toU64 (-1) = 2 ^ 64 - 1 := by decide
  have hmod : (s.pc + 4) % 2 ^ 64 = s.pc + 4 := Nat.mod_eq_of_lt hpc
  have hi0 : toI64 0 = 0 := by decide
  refine ⟨⟨?_, ?_⟩, ⟨?_, ?_⟩, ⟨?_, ?_⟩, ⟨?_, ?_⟩, ⟨?_, ?_⟩, ?_, ?_⟩
  · unfold Div.exec
    simp [h0, hi0, hm1, reg_set_reg_self _ _ _ hrd, XLen.mask]
  · unfold Div.exec
    simp
    all_goals omega
  · unfold Divu.exec
    simp [h0, hm1, reg_set_reg_self _ _ _ hrd, XLen.mask]
  · unfold Divu.exec
    simp
    all_goals omega
  · unfold Divuw.exec
    have hval : sext (toU64 (-1)) 32 &&& XLen.mask .X64 = 2 ^ 64 - 1 := by decide
    simp [h0, hval, reg_set_reg_self _ _ _ hrd]
  · unfold Divuw.exec
    simp
    all_goals omega
  · unfold Rem.exec
    simp [h0, hi0, reg_set_reg_self _ _ _ hrd, toU64_toI64 _ hx]
  · unfold Rem.exec
    simp
    all_goals omega
  · unfold Remu.exec
    simp [h0, reg_set_reg_self _ _ _ hrd]
  · unfold Remu.exec
    simp
    all_goals omega
  · intro k hk
    unfold Remuw.exec
    rw [reg_set_reg_self _ _ _ hrd]
    have h2 : Xs.reg s.xs (Format.rs2 code) &&& 0xffffffff = 0 := by simp [h0]
    have h32 : (0xffffffff : Nat) = 2 ^ 32 - 1 := by norm_num
    have hmask : XLen.mask .X64 = 2 ^ 64 - 1 := rfl
    rw [h2, if_pos rfl, hmask]
    simp only [Nat.testBit_land, Nat.testBit_two_pow_sub_one, hk, decide_True,
      Bool.and_true]
    rw [sext_testBit _ 32 k (by norm_num) (by norm_num) hk, h32]
    simp only [Nat.testBit_land, Nat.testBit_two_pow_sub_one]
    by_cases hk32 : k < 32
    · simp [hk32]
    · simp [hk32]
  · unfold Remuw.exec
    simp
    all_goals omega

/-- Witness for C5: `div x1, x2, x3` (rd=1, rs1=2, rs2=3) over the
all-zero state — registers 2 and 3 hold 0, so the quotient is the all-ones
pattern. -/
theorem c5_div_by_zero_witness :
    Xs.reg (Div.exec .X64 (0x2004033 ||| (1 <<< 7) ||| (2 <<< 15) ||| (3 <<< 20))
        stMachineZero).xs
      (Format.rd (0x2004033 ||| (1 <<< 7) ||| (2 <<< 15) ||| (3 <<< 20))) = 2 ^ 64 - 1 :=
  ((c5_div_by_zero (0x2004033 ||| (1 <<< 7) ||| (2 <<< 15) ||| (3 <<< 20))
    stMachineZero (by decide) (by decide) (by decide) (by decide)).1).1

/-- C5 counterexample: there is no DIVW instruction in the pattern table —
the canonical DIVW encodings decode to `none`, which the hart turns into
`IllegalInstruction`, instead of executing a division. -/
theorem c5_divw_counterexample :
    InsnDecoder.decode 0x200403b = none ∧
    InsnDecoder.decode (0x200403b ||| (1 <<< 7) ||| (2 <<< 15) ||| (3 <<< 20)) = none := by
  constructor
  · decide
  · decide

/-! ## Claim C9: totality of the device bus -/

/-- C9 (code bug): the DRAM dispatch range is inclusive
(`DRAM_BASE..=DRAM_BASE + 128 MiB`), but the backing vector has only
128 MiB bytes, so a 1-byte read or write at the inclusive end address
`0x8800_0000` slices the vector out of bounds and panics instead of
completing; one byte past the range correctly faults. -/
theorem c9_dram_end_crash :
    busZero.read 1 0x88000000 = .crash ∧
    (busZero.write 1 0x88000000 0).isCrash = true ∧
    busZero.read 1 0x88000001 = .fault .LoadFault ∧
    busZero.read 4 0x87fffffd = .crash ∧
    busZero.read 8 0x87fffff8 = .ok 0 := by
  refine ⟨by decide, by decide, by decide, by decide, by decide⟩

/-! ## Claim C10: totality of MMU translation over satp -/

/-- C10 counterexample: with the raw satp value `2 << 60` (mode field 2,
not one of the decodable values) `Mmu::translate` panics in `Satp::mode`'s
`unreachable!()` arm instead of returning an address or a page fault — and
such a satp value is reachable, since CSR writes are unchecked. -/
theorem c10_translate_crash_counterexample :
    Mmu.translate .X64 busZero (fun i => if i = 0x180 then 2 <<< 60 else 0) 0 .LOAD =
      .crash := by
  decide

/-- C10 (amended): translation is total only on the implemented satp
modes.  With the satp mode field 0 (Bare) every translation returns the
virtual address unchanged; a mode field outside {0, 1, 8, 9, 10, 11} hits
`unreachable!()` and panics; the decodable but unimplemented Sv48/Sv57/Sv64
modes (9, 10, 11) panic in `virtual_page_offsets`' `unimplemented!()`. -/
theorem c10_translate_totality (csrs : Csrs) (bus : Bus) (addr : Nat) (a : AccessType)
    (mf : Nat) (hmf : mf = getBitsN (Csrs.csr csrs 0x180) 60 64) :
    (mf = 0 → Mmu.translate .X64 bus csrs addr a = .ok addr) ∧
    (mf = 9 ∨ mf = 10 ∨ mf = 11 → Mmu.translate .X64 bus csrs addr a = .crash) ∧
    (mf ≠ 0 ∧ mf ≠ 1 ∧ mf ≠ 8 ∧ mf ≠ 9 ∧ mf ≠ 10 ∧ mf ≠ 11 →
      Mmu.translate .X64 bus csrs addr a = .crash) := by
  subst hmf
  refine ⟨?_, ?_, ?_⟩
  · intro h0
    unfold Mmu.translate Satp.mode
    simp [h0]
  · rintro (h | h | h) <;>
      · unfold Mmu.translate Satp.mode VirtualAddress.virtual_page_offsets
        simp [h]
  · rintro ⟨h0, h1, h8, h9, h10, h11⟩
    unfold Mmu.translate Satp.mode
    simp [h0, h1, h8, h9, h10, h11]

/-- Witness for C10: Bare translation of `0x1234` is the identity, and the
Sv48 and mode-field-2 configurations panic. -/
theorem c10_translate_totality_witness :
    Mmu.translate .X64 busZero csrsZero 0x1234 .LOAD = .ok 0x1234 ∧
    Mmu.translate .X64 busZero (fun i => if i = 0x180 then 9 <<< 60 else 0) 0 .STORE =
      .crash ∧
    Mmu.translate .X64 busZero (fun i => if i = 0x180 then 5 <<< 60 else 0) 0 .FETCH =
      .crash :=
  ⟨(c10_translate_totality csrsZero busZero 0x1234 .LOAD 0 (by decide)).1 rfl,
   (c10_translate_totality (fun i => if i = 0x180 then 9 <<< 60 else 0) busZero 0
      .STORE 9 (by decide)).2.1 (Or.inl rfl),
   (c10_translate_totality (fun i => if i = 0x180 then 5 <<< 60 else 0) busZero 0
      .FETCH 5 (by decide)).2.2 (by decide)⟩

/-! ## Claim C1: the walk's leaf test -/

/-- C1 (code bug): the PTE `0x2004_0009` is valid (`V`), execute-only
(`X` set, `R` and `W` clear) and not W-without-R, so per the claim the
Sv39 walk must stop at it and run the permission check — a fetch would
succeed.  The walk instead treats it as a pointer (the source tests
`R ∨ W`, which after the W-without-R fault check is just `R`), descends
through the self-referencing entry until the level index is exhausted, and
returns `InstructionPageFault`. -/
theorem c1_leaf_test_ignores_x :
    PageTableEnty.v 0x20040009 = true ∧
    PageTableEnty.r 0x20040009 = false ∧
    PageTableEnty.w 0x20040009 = false ∧
    PageTableEnty.x 0x20040009 = true ∧
    Bus.read busPte 8 0x80100000 = .ok 0x20040009 ∧
    Mmu.translate .X64 busPte csrsSv39 0 .FETCH = .fault .InstructionPageFault := by
  refine ⟨by decide, by decide, by decide, by decide, by decide, by decide⟩

/-! ## Claim C2: MPP encoding on traps to Machine mode -/

/-- C2 (code bug): a trap taken while the current privilege is Machine
stores the Rust discriminant `Machine = 2` into `mstatus` bits 11..13, so
MPP afterwards is 0b10, not the architectural 0b11 — a pattern the code's
own `Mstatus::mpp` reader refuses (`unreachable!()`, embedded `none`). -/
theorem c2_machine_trap_mpp :
    Csrs.csr (handle_trap .X64 stMachineZero (.exception .MachineEnvCall)).csrs 0x300 =
      0x1000 ∧
    getBitsN 0x1000 11 13 = 2 ∧
    Mstatus.mpp 0x1000 = none := by
  refine ⟨by decide, by decide, by decide⟩

/-! ## Claim C7: MRET/SRET return semantics -/

/-- A two-bit field read at 11..13 is zero when both its bits are clear. -/
theorem getBitsN_11_13_eq_zero (x : Nat) (h11 : x.testBit 11 = false)
    (h12 : x.testBit 12 = false) : getBitsN x 11 13 = 0 := by
  unfold getBitsN
  have d11 : x / 2 ^ 11 % 2 = 0 := by
    have h := Nat.testBit_to_div_mod (x := x) (i := 11)
    rw [h11] at h
    simp at h
    omega
  have d12 : x / 2 ^ 12 % 2 = 0 := by
    have h := Nat.testBit_to_div_mod (x := x) (i := 12)
    rw [h12] at h
    simp at h
    omega
  have hdd : x / 2 ^ 12 = x / 2 ^ 11 / 2 := by
    rw [Nat.div_div_eq_div_mul]
    norm_num
  rw [Nat.shiftRight_eq_div_pow]
  rw [show (2:Nat) ^ (13 - 11) - 1 = 2 ^ 2 - 1 by norm_num,
    Nat.and_pow_two_sub_one_eq_mod]
  rw [hdd] at d12
  omega

/-- C7 (amended): whenever `MRET` completes (i.e. the prior `mstatus.MPP`
field holds one of the decodable patterns 00/01/11 — on the reachable
pattern 0b10 the `mpp` read panics, see the counterexample), the new
`mstatus.MIE` equals the prior `MPIE`, `MPIE` becomes 1, `MPP` becomes
User (00), the privilege becomes the prior `MPP`, and the PC becomes the
prior `mepc`; and `SRET` unconditionally satisfies the symmetric property
over `sstatus`/`sepc`. -/
theorem c7_xret_stacking :
    (∀ s s1, Mret.exec s = some s1 →
      Mstatus.mie (Csrs.csr s1.csrs 0x300) = Mstatus.mpie (Csrs.csr s.csrs 0x300) ∧
      Mstatus.mpie (Csrs.csr s1.csrs 0x300) = true ∧
      getBitsN (Csrs.csr s1.csrs 0x300) 11 13 = 0 ∧
      Mstatus.mpp (Csrs.csr s.csrs 0x300) = some s1.privilege ∧
      s1.pc = Csrs.csr s.csrs 0x341) ∧
    (∀ s,
      Sstatus.sie (Csrs.csr (Sret.exec s).csrs 0x100) =
        Sstatus.spie (Csrs.csr s.csrs 0x100) ∧
      Sstatus.spie (Csrs.csr (Sret.exec s).csrs 0x100) = true ∧
      Sstatus.spp (Csrs.csr (Sret.exec s).csrs 0x100) = .User ∧
      (Sret.exec s).privilege = Sstatus.spp (Csrs.csr s.csrs 0x100) ∧
      (Sret.exec s).pc = Csrs.csr s.csrs 0x141) := by
  constructor
  · intro s s1 h
    unfold Mret.exec at h
    cases hm : Mstatus.mpp (Csrs.csr s.csrs 0x300) with
    | none => rw [hm] at h; exact absurd h (by simp)
    | some p =>
      rw [hm] at h
      simp only [Option.some.injEq] at h
      subst h
      have hcell : Csrs.csr
          (Csrs.set_csr s.csrs 0x300
            (Mstatus.set_mpp
              (Mstatus.set_mpie
                (Mstatus.set_mie (Csrs.csr s.csrs 0x300)
                  (Mstatus.mpie (Csrs.csr s.csrs 0x300))) true) .User)) 0x300 =
          Mstatus.set_mpp
            (Mstatus.set_mpie
              (Mstatus.set_mie (Csrs.csr s.csrs 0x300)
                (Mstatus.mpie (Csrs.csr s.csrs 0x300))) true) .User := by
        unfold Csrs.csr Csrs.set_csr
        simp
      refine ⟨?_, ?_, ?_, rfl, rfl⟩
      · show Mstatus.mie (Csrs.csr (Csrs.set_csr s.csrs 0x300 _) 0x300) = _
        rw [hcell]
        unfold Mstatus.mie Mstatus.set_mpp Mstatus.set_mpie Mstatus.set_mie getBit
        rw [testBit_setBitsN _ 11 13 _ 3 (by norm_num) (by decide)]
        rw [if_neg (by omega)]
        rw [testBit_setBitN _ 7 true 3 (by norm_num), if_neg (by omega)]
        rw [testBit_setBitN _ 3 _ 3 (by norm_num), if_pos rfl]
      · show Mstatus.mpie (Csrs.csr (Csrs.set_csr s.csrs 0x300 _) 0x300) = _
        rw [hcell]
        unfold Mstatus.mpie Mstatus.set_mpp Mstatus.set_mpie getBit
        rw [testBit_setBitsN _ 11 13 _ 7 (by norm_num) (by decide)]
        rw [if_neg (by omega)]
        rw [testBit_setBitN _ 7 true 7 (by norm_num), if_pos rfl]
      · show getBitsN (Csrs.csr (Csrs.set_csr s.csrs 0x300 _) 0x300) 11 13 = 0
        rw [hcell]
        apply getBitsN_11_13_eq_zero
        · unfold Mstatus.set_mpp
          rw [testBit_setBitsN _ 11 13 _ 11 (by norm_num) (by decide)]
          rw [if_pos (by omega)]
          decide
        · unfold Mstatus.set_mpp
          rw [testBit_setBitsN _ 11 13 _ 12 (by norm_num) (by decide)]
          rw [if_pos (by omega)]
          decide
  · intro s
    unfold Sret.exec
    have hcell : ∀ v, Csrs.csr (Csrs.set_csr s.csrs 0x100 v) 0x100 = v := by
      intro v
      unfold Csrs.csr Csrs.set_csr
      simp
    refine ⟨?_, ?_, ?_, rfl, rfl⟩
    · show Sstatus.sie (Csrs.csr (Csrs.set_csr s.csrs 0x100 _) 0x100) = _
      rw [hcell]
      unfold Sstatus.sie Sstatus.set_spp Sstatus.set_spie Sstatus.set_sie getBit
      rw [if_pos rfl]
      rw [testBit_setBitN _ 8 false 1 (by norm_num), if_neg (by omega)]
      rw [testBit_setBitN _ 5 true 1 (by norm_num), if_neg (by omega)]
      rw [testBit_setBitN _ 1 _ 1 (by norm_num), if_pos rfl]
    · show Sstatus.spie (Csrs.csr (Csrs.set_csr s.csrs 0x100 _) 0x100) = _
      rw [hcell]
      unfold Sstatus.spie Sstatus.set_spp Sstatus.set_spie getBit
      rw [if_pos rfl]
      rw [testBit_setBitN _ 8 false 5 (by norm_num), if_neg (by omega)]
      rw [testBit_setBitN _ 5 true 5 (by norm_num), if_pos rfl]
    · show Sstatus.spp (Csrs.csr (Csrs.set_csr s.csrs 0x100 _) 0x100) = _
      rw [hcell]
      unfold Sstatus.spp Sstatus.set_spp getBit
      rw [if_pos rfl]
      rw [testBit_setBitN _ 8 false 8 (by norm_num), if_pos rfl]
      simp

/-- Witness for C7: the MRET half applied at `stMret` (the completion
hypothesis discharged by computation), plus the SRET half at the all-zero
state. -/
theorem c7_xret_stacking_witness :
    stMret1.pc = Csrs.csr stMret.csrs 0x341 ∧
    Sstatus.spie (Csrs.csr (Sret.exec stMachineZero).csrs 0x100) = true :=
  ⟨(c7_xret_stacking.1 stMret stMret1 rfl).2.2.2.2,
   (c7_xret_stacking.2 stMachineZero).2.1⟩

/-- C7 counterexample: on the state whose `mstatus.MPP` field holds 0b10 —
left behind by any trap taken in Machine mode — `MRET` does not complete
at all (the `mpp` read hits `unreachable!()`), so no post-state satisfies
the claimed equalities. -/
theorem c7_mret_counterexample : Mret.exec stMpp2 = none := rfl

/-! ## Claim C6: trap-vector entry PC -/

/-- Embeds `Csrs::set_csr` at an ordinary index leaves every other cell
unchanged. -/
theorem csr_frame_set (c : Csrs) (n v j : Nat) (hn : n ≠ 0x104) (hj : j ≠ n) :
    Csrs.csr (Csrs.set_csr c n v) j = Csrs.csr c j := by
  unfold Csrs.csr Csrs.set_csr
  simp [hn, hj]

/-- Folding the interrupt top bit into a small cause: `2^63 ||| c` is
`2^63 + c`. -/
theorem lor_two_pow_63_add (c : Nat) (hc : c < 2 ^ 63) :
    (1 <<< 63) ||| c = 2 ^ 63 + c := by
  rw [Nat.shiftLeft_eq, one_mul]
  apply Nat.eq_of_testBit_eq
  intro k
  have hsum : (2 ^ 63 + c).testBit k =
      if k < 63 then c.testBit k else Nat.testBit 1 (k - 63) := by
    have h := Nat.testBit_mul_pow_two_add 1 hc k
    simpa using h
  rw [hsum]
  simp only [Nat.testBit_lor, Nat.testBit_two_pow]
  by_cases hk : k < 63
  · rw [if_pos hk, decide_eq_false (by omega : ¬ (63 = k)), Bool.false_or]
  · rw [if_neg hk]
    by_cases hk63 : k = 63
    · subst hk63
      rw [Nat.testBit_lt_two_pow hc, decide_eq_true (rfl : 63 = 63)]
      decide
    · have h1 : c.testBit k = false :=
        Nat.testBit_lt_two_pow
          (lt_of_lt_of_le hc (Nat.pow_le_pow_right (by norm_num) (by omega)))
      have h2 : Nat.testBit 1 (k - 63) = false := by
        apply Nat.testBit_lt_two_pow
        calc (1:Nat) < 2 ^ 1 := by norm_num
        _ ≤ 2 ^ (k - 63) := Nat.pow_le_pow_right (by norm_num) (by omega)
      rw [h1, h2, decide_eq_false (by omega : ¬ (63 = k)), Bool.false_or]

/-- The wrapped `4 * cause` offset of a vectored interrupt is just `4·c`
mod 2^64: multiplying the folded-in top bit by 4 overflows out of the
64-bit word. -/
theorem interrupt_offset_mod (c : Nat) (hc : c < 2 ^ 63) :
    (4 * ((1 <<< 63) ||| c)) % 2 ^ 64 = (4 * c) % 2 ^ 64 := by
  rw [lor_two_pow_63_add c hc]
  omega

/-- The PC produced by `handle_trap` is exactly `trap_pc` of the selected
trap vector (`stvec` for a delegated trap, `mtvec` otherwise — the CSR
writes of the delivery never touch either vector cell). -/
theorem handle_trap_pc (xlen : XLen) (s : CpuStatus) (t : Trap) :
    (handle_trap xlen s t).pc =
      (Xtvec.trap_mode (if trapTarget xlen s t = .Supervisor
          then Csrs.csr s.csrs 0x105 else Csrs.csr s.csrs 0x305)).trap_pc
        (Xtvec.address (if trapTarget xlen s t = .Supervisor
          then Csrs.csr s.csrs 0x105 else Csrs.csr s.csrs 0x305))
        (match t with
         | .interrupt i => (1 <<< (xlen.len - 1)) ||| i.code
         | .exception e => e.code)
        (match t with
         | .interrupt _ => true
         | .exception _ => false) := by
  cases t with
  | interrupt i =>
    unfold handle_trap
    by_cases hd : trapTarget xlen s (Trap.interrupt i) = .Supervisor
    · simp [hd]
      rw [csr_frame_set _ _ _ _ (by norm_num) (by norm_num),
        csr_frame_set _ _ _ _ (by norm_num) (by norm_num),
        csr_frame_set _ _ _ _ (by norm_num) (by norm_num),
        csr_frame_set _ _ _ _ (by norm_num) (by norm_num)]
    · simp [hd]
      rw [csr_frame_set _ _ _ _ (by norm_num) (by norm_num),
        csr_frame_set _ _ _ _ (by norm_num) (by norm_num),
        csr_frame_set _ _ _ _ (by norm_num) (by norm_num),
        csr_frame_set _ _ _ _ (by norm_num) (by norm_num)]
  | exception e =>
    unfold handle_trap
    by_cases hd : trapTarget xlen s (Trap.exception e) = .Supervisor
    · simp [hd]
      rw [csr_frame_set _ _ _ _ (by norm_num) (by norm_num),
        csr_frame_set _ _ _ _ (by norm_num) (by norm_num),
        csr_frame_set _ _ _ _ (by norm_num) (by norm_num),
        csr_frame_set _ _ _ _ (by norm_num) (by norm_num)]
    · simp [hd]
      rw [csr_frame_set _ _ _ _ (by norm_num) (by norm_num),
        csr_frame_set _ _ _ _ (by norm_num) (by norm_num),
        csr_frame_set _ _ _ _ (by norm_num) (by norm_num),
        csr_frame_set _ _ _ _ (by norm_num) (by norm_num)]

/-- Embeds `trap_pc` without a vectored interrupt: the offset is 0. -/
theorem trap_pc_offset_zero (m : TrapMode) (base cause : Nat) (ii : Bool)
    (h : ¬ (ii = true ∧ m = .Vectored)) :
    m.trap_pc base cause ii = base % 2 ^ 64 := by
  unfold TrapMode.trap_pc
  rw [if_neg h]
  show (base + 0) % 2 ^ 64 = base % 2 ^ 64
  rw [Nat.add_zero]

/-- Embeds `trap_pc` of a vectored interrupt adds the wrapped `4 * cause`. -/
theorem trap_pc_vectored_interrupt (base cause : Nat) :
    TrapMode.Vectored.trap_pc base cause true = (base + (4 * cause) % 2 ^ 64) % 2 ^ 64 := by
  unfold TrapMode.trap_pc
  rw [if_pos ⟨rfl, rfl⟩]

/-- C6: on every trap delivery, when the selected trap vector's low two
bits are 0 (Direct) the new PC is `xtvec & ~0b11`; when they are 1
(Vectored) the new PC is `xtvec & ~0b11` for exceptions and
`(xtvec & ~0b11) + 4·c` (as a 64-bit value) for an interrupt with cause
code `c`. -/
theorem c6_trap_vector (s : CpuStatus) (t : Trap) (xt : Nat)
    (hxt : xt = (if trapTarget .X64 s t = .Supervisor
        then Csrs.csr s.csrs 0x105 else Csrs.csr s.csrs 0x305))
    (hlt : xt < 2 ^ 64) :
    (xt &&& 3 = 0 → (handle_trap .X64 s t).pc = xt - (xt &&& 3)) ∧
    (xt &&& 3 = 1 →
      (handle_trap .X64 s t).pc =
        match t with
        | .exception _ => xt - (xt &&& 3)
        | .interrupt i => ((xt - (xt &&& 3)) + 4 * i.code) % 2 ^ 64) := by
  have hpc := handle_trap_pc .X64 s t
  rw [← hxt] at hpc
  have hle : xt &&& 3 ≤ xt := Nat.and_le_left
  constructor
  · intro h0
    have hm : Xtvec.trap_mode xt = .Direct := by
      unfold Xtvec.trap_mode
      rw [if_pos h0]
    rw [hpc, hm]
    cases t with
    | exception e =>
      rw [trap_pc_offset_zero _ _ _ _ (by simp)]
      unfold Xtvec.address
      omega
    | interrupt i =>
      rw [trap_pc_offset_zero _ _ _ _ (by simp)]
      unfold Xtvec.address
      omega
  · intro h1
    have hm : Xtvec.trap_mode xt = .Vectored := by
      unfold Xtvec.trap_mode
      rw [if_neg (by omega)]
    rw [hpc, hm]
    cases t with
    | exception e =>
      rw [trap_pc_offset_zero _ _ _ _ (by simp)]
      show _ = xt - (xt &&& 3)
      unfold Xtvec.address
      omega
    | interrupt i =>
      rw [trap_pc_vectored_interrupt]
      show _ = (xt - (xt &&& 3) + 4 * Interrupt.code i) % 2 ^ 64
      have hc : i.code < 2 ^ 63 := by cases i <;> decide
      rw [show (1 <<< (XLen.len .X64 - 1)) = 1 <<< 63 from rfl]
      rw [interrupt_offset_mod _ hc]
      unfold Xtvec.address
      omega

/-- Witness for C6: a machine-timer interrupt through the vectored
`mtvec` = 0x1001 lands on `0x1000 + 4·7`. -/
theorem c6_trap_vector_witness :
    (handle_trap .X64 stTvec (.interrupt .MachineTimer)).pc =
      ((0x1001 - (0x1001 &&& 3)) + 4 * Interrupt.code .MachineTimer) % 2 ^ 64 :=
  (c6_trap_vector stTvec (.interrupt .MachineTimer) 0x1001 (by decide) (by decide)).2
    (by decide)
